import Mathlib

/-!
Verification of the chatify-frontend chat client.

The repository holds two near-duplicate client variants:
* `src/unnamed/part_000` — the login variant: `io(API_URL, { autoConnect: false })`,
  a `LoginScreen`, `localStorage` identity persistence, and a `newMessage`
  handler that suppresses echo of self-sent messages.
* `src/src/App.jsx` — the loginless variant: `io(API_URL)` (autoConnect defaults
  to true), a hard-coded current user id `user1`, and a `newMessage` handler
  without echo suppression.

Definitions below are shallow embeddings of those source functions; names are
kept where Lean allows, prefixed `part000` / `appJsx` when the two variants
differ.
-/

/-- A chat message as constructed in `handleSendMessage` and delivered by the
`newMessage` socket event: `{ id, chatId, senderId, content, timestamp, status }`. -/
structure ChatMessage where
  id : String
  chatId : String
  senderId : String
  content : String
  timestamp : String
  status : String
deriving DecidableEq, Repr

/-- The React state `messages`, a JS object keyed by chat id whose missing keys
read as `undefined` and are defaulted with `|| []`; modelled as a total map. -/
def MessageLog : Type := String → List ChatMessage

/-- The object-spread update `{...prev, [m.chatId]: [...(prev[m.chatId] || []), m]}`
shared by the `newMessage` handler and `handleSendMessage`. -/
def applyAppend (prev : MessageLog) (m : ChatMessage) : MessageLog :=
  fun c => if c = m.chatId then prev c ++ [m] else prev c

/-- `src/unnamed/part_000` lines 130–133: the `newMessage` handler; returns early
(state untouched) when `newMessage.senderId === currentUser.id`. -/
def part000NewMessageHandler (currentUserId : String) (prev : MessageLog)
    (m : ChatMessage) : MessageLog :=
  if m.senderId = currentUserId then prev else applyAppend prev m

/-- `src/src/App.jsx` lines 49–54: the `newMessage` handler; appends
unconditionally, with no sender check. -/
def appJsxNewMessageHandler (prev : MessageLog) (m : ChatMessage) : MessageLog :=
  applyAppend prev m

/-- In `src/src/App.jsx` the current user's id is the hard-coded `'user1'`
(lines 108, 123, 322). -/
def appJsxCurrentUserId : String := "user1"

/-- An outbound `socket.emit('sendMessage', { chatId, message })` payload. -/
structure SendEmit where
  chatId : String
  message : ChatMessage
deriving DecidableEq, Repr

/-- Model of the JS builtin `String.prototype.trim`: strip leading and trailing
whitespace. -/
def jsTrim (s : String) : String :=
  String.mk (((s.toList.dropWhile Char.isWhitespace).reverse.dropWhile
    Char.isWhitespace).reverse)

/-- The message literal built inside `handleSendMessage`:
`{ id: msg_<now>, chatId: activeChatId, senderId, content, timestamp, status: 'sent' }`.
`now` stands for `Date.now()` and `ts` for the formatted `toLocaleTimeString` value. -/
def mkSentMessage (activeChatId senderId content : String) (now : Nat) (ts : String) :
    ChatMessage :=
  { id := "msg_" ++ toString now
  , chatId := activeChatId
  , senderId := senderId
  , content := content
  , timestamp := ts
  , status := "sent" }

/-- `handleSendMessage(content)` (part_000 lines 170–182, App.jsx lines 103–120):
bails out when `!content.trim()`, otherwise appends the new message to the active
chat's log and emits exactly one `sendMessage`. -/
def handleSendMessage (activeChatId senderId : String) (prev : MessageLog)
    (content : String) (now : Nat) (ts : String) : MessageLog × List SendEmit :=
  if jsTrim content = "" then (prev, [])
  else
    let m := mkSentMessage activeChatId senderId content now ts
    (applyAppend prev m, [⟨activeChatId, m⟩])

/-- The empty `messages` state (a fresh `{}`). -/
def emptyLog : MessageLog := fun _ => []

/-- A concrete self-authored message in the App.jsx variant: its sender is the
hard-coded current user `user1`. -/
def appJsxEchoMsg : ChatMessage :=
  { id := "msg_1", chatId := "chat1", senderId := appJsxCurrentUserId
  , content := "hi", timestamp := "10:30 AM", status := "sent" }

/-- Claim C1 (counterexample): in the `src/src/App.jsx` variant, an inbound
`newMessage` whose sender id equals the current user's id (`user1`) is NOT a
no-op: it is appended to the log, so the message-log state changes. -/
theorem appJsx_no_echo_suppression_cex :
    appJsxEchoMsg.senderId = appJsxCurrentUserId ∧
    appJsxNewMessageHandler emptyLog appJsxEchoMsg "chat1" ≠ emptyLog "chat1" := by
  constructor
  · rfl
  · simp [appJsxNewMessageHandler, applyAppend, emptyLog, appJsxEchoMsg]

/-- Claim C1 (amended): in the `part_000` variant, the `newMessage` handler is a
no-op whenever the inbound message's sender id equals the current user's id:
the whole message-log state is returned unchanged. -/
theorem part000_echo_suppression (currentUserId : String) (prev : MessageLog)
    (m : ChatMessage) (h : m.senderId = currentUserId) :
    part000NewMessageHandler currentUserId prev m = prev := by
  simp [part000NewMessageHandler, h]

/-- Witness for `part000_echo_suppression` at a concrete self-sent message. -/
theorem part000_echo_suppression_witness :
    appJsxEchoMsg.senderId = "user1" ∧
    part000NewMessageHandler "user1" emptyLog appJsxEchoMsg = emptyLog :=
  ⟨by decide, part000_echo_suppression "user1" emptyLog appJsxEchoMsg (by decide)⟩

/-- Claim C2: for content with non-empty trim, `handleSendMessage` appends
exactly the one constructed message to the active chat's log and performs
exactly one `sendMessage` emit; for content whose trim is empty it returns the
log unchanged and emits nothing. -/
theorem handleSendMessage_spec (activeChatId senderId : String) (prev : MessageLog)
    (content : String) (now : Nat) (ts : String) :
    (jsTrim content ≠ "" →
      (handleSendMessage activeChatId senderId prev content now ts).1 activeChatId
          = prev activeChatId ++ [mkSentMessage activeChatId senderId content now ts] ∧
      (handleSendMessage activeChatId senderId prev content now ts).2
          = [⟨activeChatId, mkSentMessage activeChatId senderId content now ts⟩]) ∧
    (jsTrim content = "" →
      handleSendMessage activeChatId senderId prev content now ts = (prev, [])) := by
  constructor
  · intro h
    simp [handleSendMessage, h, applyAppend, mkSentMessage]
  · intro h
    simp [handleSendMessage, h]

/-- Witness for `handleSendMessage_spec`: sending "hi" appends one message and
emits once. -/
theorem handleSendMessage_spec_witness :
    jsTrim "hi" ≠ "" ∧
    ((handleSendMessage "chat1" "user1" emptyLog "hi" 5 "10:30 AM").1 "chat1"
        = emptyLog "chat1" ++ [mkSentMessage "chat1" "user1" "hi" 5 "10:30 AM"] ∧
      (handleSendMessage "chat1" "user1" emptyLog "hi" 5 "10:30 AM").2
        = [⟨"chat1", mkSentMessage "chat1" "user1" "hi" 5 "10:30 AM"⟩]) :=
  ⟨by decide,
    (handleSendMessage_spec "chat1" "user1" emptyLog "hi" 5 "10:30 AM").1 (by decide)⟩

/-- An inbound `typing` event. The protocol payload carries `{chatId, user,
isTyping}`; both source handlers destructure only `{ chatId, isTyping }`. -/
structure TypingEvent where
  chatId : String
  userId : String
  isTyping : Bool
deriving DecidableEq, Repr

/-- `new Set(prev); newTypingChats.add(chatId)` — JS `Set.add` keeps insertion
order and never duplicates; modelled on an ordered duplicate-free list. -/
def setAdd (s : List String) (x : String) : List String :=
  if x ∈ s then s else s ++ [x]

/-- `newTypingChats.delete(chatId)` on the same model. -/
def setDelete (s : List String) (x : String) : List String :=
  s.erase x

/-- The `typing` socket handler (part_000 lines 135–142, App.jsx lines 56–66):
adds the chat id to `typingChats` when `isTyping`, removes it otherwise. The
event's user is never inspected. -/
def typingHandler (s : List String) (e : TypingEvent) : List String :=
  if e.isTyping then setAdd s e.chatId else setDelete s e.chatId

/-- Claim C6 (counterexample): with current user id `alice`, an inbound typing
event whose user id equals `alice` is NOT ignored: it changes the typing-set
state (the handlers never look at the event's user). -/
theorem typing_self_event_not_ignored_cex :
    (TypingEvent.mk "chat1" "alice" true).userId = "alice" ∧
    typingHandler [] (TypingEvent.mk "chat1" "alice" true) ≠ [] := by
  constructor
  · rfl
  · decide

/-- Claim C6 (amended): the typing handler ignores the event's user entirely
(same result for any user id), upserts the chat id on `isTyping = true`,
removes it on `isTyping = false`, and preserves freedom from duplicates. -/
theorem typingHandler_spec (s : List String) (e : TypingEvent) (h : s.Nodup) :
    (typingHandler s e).Nodup ∧
    (∀ userId, typingHandler s e = typingHandler s (TypingEvent.mk e.chatId userId e.isTyping)) ∧
    (e.isTyping = true → typingHandler s e = setAdd s e.chatId) ∧
    (e.isTyping = false → typingHandler s e = setDelete s e.chatId) := by
  refine ⟨?_, ?_, ?_, ?_⟩
  · unfold typingHandler setAdd setDelete
    rcases e.isTyping with _ | _
    · simpa using h.erase e.chatId
    · by_cases hm : e.chatId ∈ s
      · simpa [hm] using h
      · simp only [if_pos rfl, if_neg hm]
        rw [← List.concat_eq_append]
        exact h.concat hm
  · intro userId
    simp [typingHandler]
  · intro ht
    simp [typingHandler, ht]
  · intro ht
    simp [typingHandler, ht]

/-- Witness for `typingHandler_spec` at a concrete duplicate-free set. -/
theorem typingHandler_spec_witness :
    (["chat2"] : List String).Nodup ∧
    typingHandler ["chat2"] (TypingEvent.mk "chat1" "bob" true) = setAdd ["chat2"] "chat1" :=
  ⟨by decide,
    (typingHandler_spec ["chat2"] (TypingEvent.mk "chat1" "bob" true) (by decide)).2.2.1 rfl⟩

/-- The `setTimeout` delay in `handleTyping`: 2000 milliseconds. -/
def debounceDelay : Nat := 2000

/-- An outbound `socket.emit('typing', { chatId, isTyping })`, tagged with the
time at which it happens. -/
structure TypingEmit where
  time : Nat
  isTyping : Bool
deriving DecidableEq, Repr

/-- The debouncer's timer slot `typingTimeoutRef.current`, modelled as the
absolute deadline of the pending timeout (if any). If the deadline has passed
by time `t`, the timeout callback has already run: it emitted
`typing{isTyping:false}` at the deadline and cleared the slot. -/
def fireDue (st : Option Nat) (t : Nat) : Option Nat × List TypingEmit :=
  match st with
  | none => (none, [])
  | some d => if d ≤ t then (none, [⟨d, false⟩]) else (some d, [])

/-- `handleTyping` (part_000 lines 209–218, App.jsx lines 153–168) at time `t`:
if no timeout is pending, emit `typing{isTyping:true}`; else `clearTimeout`;
then start a fresh timeout due at `t + 2000`. -/
def handleTyping (st : Option Nat) (t : Nat) : Option Nat × List TypingEmit :=
  let p := fireDue st t
  match p.1 with
  | none => (some (t + debounceDelay), p.2 ++ [⟨t, true⟩])
  | some _ => (some (t + debounceDelay), p.2)

/-- Letting a pending timeout run to its deadline: the callback emits
`typing{isTyping:false}` and nulls the slot. -/
def flushTimer : Option Nat → List TypingEmit
  | none => []
  | some d => [⟨d, false⟩]

/-- All typing emits produced by keystrokes at the given times starting from
timer state `st`, followed by letting any pending timeout fire. -/
def runFrom : Option Nat → List Nat → List TypingEmit
  | st, [] => flushTimer st
  | st, t :: ts => (handleTyping st t).2 ++ runFrom (handleTyping st t).1 ts

/-- A burst: keystrokes at the given times starting from the idle debouncer,
then the trailing timeout fires. -/
def runBurst (ts : List Nat) : List TypingEmit :=
  runFrom none ts

/-- `gapsOk prev ts` holds when the times in `ts` strictly increase starting
after `prev` and each consecutive gap is below 2000ms. -/
def gapsOk : Nat → List Nat → Bool
  | _, [] => true
  | prev, t :: ts => if prev < t ∧ t < prev + debounceDelay then gapsOk t ts else false

theorem runFrom_pending (ts : List Nat) (prev : Nat) (h : gapsOk prev ts = true) :
    runFrom (some (prev + debounceDelay)) ts
      = [⟨ts.getLastD prev + debounceDelay, false⟩] := by
  induction ts generalizing prev with
  | nil => simp [runFrom, flushTimer]
  | cons t ts ih =>
    rw [gapsOk] at h
    split at h
    · rename_i hgap
      have hlt : ¬ (prev + debounceDelay ≤ t) := by omega
      rw [List.getLastD_cons]
      rw [runFrom]
      rw [show handleTyping (some (prev + debounceDelay)) t
            = (some (t + debounceDelay), []) by
        simp [handleTyping, fireDue, hlt]]
      simpa using ih t h
    · exact absurd h (by simp)

/-- Claim C3: for every burst of keystrokes at times `t0 :: ts` whose
consecutive gaps are strictly positive and below 2000ms, the debouncer emits
exactly `typing{isTyping:true}` at the first keystroke and exactly
`typing{isTyping:false}` 2000ms after the last keystroke, and nothing else. -/
theorem typing_debouncer_burst (t0 : Nat) (ts : List Nat) (h : gapsOk t0 ts = true) :
    runBurst (t0 :: ts)
      = [⟨t0, true⟩, ⟨ts.getLastD t0 + debounceDelay, false⟩] := by
  rw [runBurst, runFrom]
  rw [show handleTyping none t0 = (some (t0 + debounceDelay), [⟨t0, true⟩]) by
    simp [handleTyping, fireDue]]
  rw [runFrom_pending ts t0 h]
  rfl

/-- Witness for `typing_debouncer_burst`: three keystrokes at 0ms, 1000ms and
1999ms yield a start emit at 0ms and a stop emit at 3999ms. -/
theorem typing_debouncer_burst_witness :
    gapsOk 0 [1000, 1999] = true ∧
    runBurst [0, 1000, 1999]
      = [⟨0, true⟩, ⟨([1000, 1999] : List Nat).getLastD 0 + debounceDelay, false⟩] :=
  ⟨by decide, typing_debouncer_burst 0 [1000, 1999] (by decide)⟩

/-- The `MessageInput` timer bookkeeping, modelled at the JS timer level:
`ref` is `typingTimeoutRef.current` (the id returned by the last `setTimeout`,
or null), `active` lists the ids of timeouts that have been started and neither
cancelled nor fired, in start order, and `nextId` is the next fresh timer id. -/
structure TimerState where
  ref : Option Nat
  active : List Nat
  nextId : Nat
deriving DecidableEq, Repr

/-- Events hitting one `MessageInput`: a keystroke (`handleTyping` via
`onChange`), a submit (`handleSubmit`), or the runtime firing the timeout with
a given id. -/
inductive InputEvent where
  | keystroke : InputEvent
  | submit : InputEvent
  | fire : Nat → InputEvent
deriving DecidableEq, Repr

/-- One event step of `MessageInput`, returning the new timer state and the
`isTyping` values of the `typing` emits it performs, in order.
* keystroke (part_000 lines 209–218): if the ref is null emit `true`, else
  `clearTimeout(ref)`; then `setTimeout(..., 2000)` stores a fresh id in the ref.
* submit (part_000 lines 220–229): if the ref is non-null, `clearTimeout`, emit
  `false` and null the ref; otherwise nothing.
* the timeout callback (part_000 lines 214–217) runs only while its id is still
  active; it emits `false` and nulls the ref. -/
def timerStep (s : TimerState) : InputEvent → TimerState × List Bool
  | InputEvent.keystroke =>
    match s.ref with
    | none =>
      (⟨some s.nextId, s.active ++ [s.nextId], s.nextId + 1⟩, [true])
    | some i =>
      (⟨some s.nextId, s.active.erase i ++ [s.nextId], s.nextId + 1⟩, [])
  | InputEvent.submit =>
    match s.ref with
    | some i => (⟨none, s.active.erase i, s.nextId⟩, [false])
    | none => (s, [])
  | InputEvent.fire j =>
    if j ∈ s.active then (⟨none, s.active.erase j, s.nextId⟩, [false])
    else (s, [])

/-- The initial (Idle) state: null ref, no outstanding timeout. -/
def initTimerState : TimerState := ⟨none, [], 0⟩

/-- The timer state after a sequence of events starting from Idle. -/
def runTimers (evs : List InputEvent) : TimerState :=
  evs.foldl (fun s e => (timerStep s e).1) initTimerState

/-- The structural invariant of the timer bookkeeping: the outstanding timeouts
are exactly the one referenced by `typingTimeoutRef` (if any), and all started
ids are below the fresh-id counter. -/
def TimerInv (s : TimerState) : Prop :=
  s.active = s.ref.toList ∧ ∀ i ∈ s.active, i < s.nextId

theorem timerStep_preserves_inv (s : TimerState) (e : InputEvent) (h : TimerInv s) :
    TimerInv ((timerStep s e).1) := by
  obtain ⟨hact, hfresh⟩ := h
  cases e with
  | keystroke =>
    cases href : s.ref with
    | none =>
      simp [href] at hact
      refine ⟨by simp [timerStep, href, hact], ?_⟩
      simp [timerStep, href, hact]
    | some i =>
      simp [href] at hact
      refine ⟨by simp [timerStep, href, hact], ?_⟩
      simp [timerStep, href, hact]
  | submit =>
    cases href : s.ref with
    | none => exact ⟨by simpa [timerStep, href] using hact, by simpa [timerStep, href] using hfresh⟩
    | some i =>
      simp [href] at hact
      exact ⟨by simp [timerStep, href, hact], by simp [timerStep, href, hact]⟩
  | fire j =>
    by_cases hj : j ∈ s.active
    · cases href : s.ref with
      | none => simp [href] at hact; rw [hact] at hj; simp at hj
      | some i =>
        simp [href] at hact
        rw [hact] at hj
        simp at hj
        subst hj
        exact ⟨by simp [timerStep, hact, href], by simp [timerStep, hact, href]⟩
    · exact ⟨by simpa [timerStep, hj] using hact, by simpa [timerStep, hj] using hfresh⟩

theorem runTimers_inv (evs : List InputEvent) : TimerInv (runTimers evs) := by
  suffices h : ∀ (l : List InputEvent) (s : TimerState), TimerInv s →
      TimerInv (l.foldl (fun s e => (timerStep s e).1) s) by
    exact h evs initTimerState ⟨rfl, by intro i hi; simp [initTimerState] at hi⟩
  intro l
  induction l with
  | nil => intro s hs; exact hs
  | cons e l ih =>
    intro s hs
    exact ih _ (timerStep_preserves_inv s e hs)

/-- Claim C4: from an Announcing state (a pending timeout `i` referenced by the
ref), the step reaches Idle (null ref) exactly on a submit or on the firing of
that timeout; in both cases it emits exactly one `typing{isTyping:false}` and
leaves no timeout outstanding. A keystroke or the firing of any other id never
reaches Idle. -/
theorem announcing_to_idle (s : TimerState) (i : Nat) (hinv : TimerInv s)
    (href : s.ref = some i) (e : InputEvent) :
    (((timerStep s e).1.ref = none) ↔ (e = InputEvent.submit ∨ e = InputEvent.fire i)) ∧
    ((e = InputEvent.submit ∨ e = InputEvent.fire i) →
      (timerStep s e).2 = [false] ∧ (timerStep s e).1.active = []) := by
  obtain ⟨hact, hfresh⟩ := hinv
  rw [href] at hact
  simp at hact
  cases e with
  | keystroke => simp [timerStep, href]
  | submit => simp [timerStep, href, hact]
  | fire j =>
    by_cases hj : j = i
    · subst hj
      simp [timerStep, hact]
    · simp [timerStep, hact, hj, Ne.symm hj, href]

/-- Witness for `announcing_to_idle`: from a state with one pending timeout,
submitting the message reaches Idle with one stop emit and no timeout left. -/
theorem announcing_to_idle_witness :
    TimerInv ⟨some 0, [0], 1⟩ ∧ (⟨some 0, [0], 1⟩ : TimerState).ref = some 0 ∧
    ((((timerStep ⟨some 0, [0], 1⟩ InputEvent.submit).1.ref = none) ↔
        (InputEvent.submit = InputEvent.submit ∨ InputEvent.submit = InputEvent.fire 0)) ∧
      ((InputEvent.submit = InputEvent.submit ∨ InputEvent.submit = InputEvent.fire 0) →
        (timerStep ⟨some 0, [0], 1⟩ InputEvent.submit).2 = [false] ∧
        (timerStep ⟨some 0, [0], 1⟩ InputEvent.submit).1.active = [])) :=
  ⟨⟨by decide, by decide⟩, rfl,
    announcing_to_idle ⟨some 0, [0], 1⟩ 0 ⟨by decide, by decide⟩ rfl InputEvent.submit⟩

/-- Claim C5: along every sequence of keystroke/submit/timer-fire events from
the Idle state, at most one timeout is outstanding; a further keystroke leaves
exactly the freshly started timeout outstanding, and whatever timeout was
pending before that keystroke is no longer outstanding afterwards (it is
cancelled before the new one is started). -/
theorem timer_at_most_one_outstanding (evs : List InputEvent) :
    (runTimers evs).active.length ≤ 1 ∧
    (timerStep (runTimers evs) InputEvent.keystroke).1.active = [(runTimers evs).nextId] ∧
    (∀ i, (runTimers evs).ref = some i →
      i ∉ (timerStep (runTimers evs) InputEvent.keystroke).1.active) := by
  obtain ⟨hact, hfresh⟩ := runTimers_inv evs
  refine ⟨?_, ?_, ?_⟩
  · rw [hact]; cases (runTimers evs).ref <;> simp
  · cases href : (runTimers evs).ref with
    | none => rw [href] at hact; simp at hact; simp [timerStep, href, hact]
    | some i => rw [href] at hact; simp at hact; simp [timerStep, href, hact]
  · intro i href
    rw [href] at hact
    simp at hact
    have hi : i < (runTimers evs).nextId := hfresh i (by rw [hact]; simp)
    simp [timerStep, href, hact]
    omega

/-- Witness for `timer_at_most_one_outstanding`: two keystrokes then a submit. -/
theorem timer_at_most_one_outstanding_witness :
    (runTimers [InputEvent.keystroke, InputEvent.keystroke, InputEvent.submit]).active.length ≤ 1 ∧
    (timerStep (runTimers [InputEvent.keystroke, InputEvent.keystroke, InputEvent.submit])
        InputEvent.keystroke).1.active
      = [(runTimers [InputEvent.keystroke, InputEvent.keystroke, InputEvent.submit]).nextId] ∧
    (∀ i, (runTimers [InputEvent.keystroke, InputEvent.keystroke, InputEvent.submit]).ref = some i →
      i ∉ (timerStep (runTimers [InputEvent.keystroke, InputEvent.keystroke, InputEvent.submit])
        InputEvent.keystroke).1.active) :=
  timer_at_most_one_outstanding [InputEvent.keystroke, InputEvent.keystroke, InputEvent.submit]

/-- The identity created by `handleLogin` and stored under the single
`localStorage` key `chatify-user`: `{ id, name }`. -/
structure StoredUser where
  id : String
  name : String
deriving DecidableEq, Repr

/-- The double-quote character. -/
def quoteChar : Char := Char.ofNat 34

/-- The backslash character. -/
def backslashChar : Char := Char.ofNat 92

/-- The opening-brace character. -/
def openBraceChar : Char := Char.ofNat 123

/-- The closing-brace character. -/
def closeBraceChar : Char := Char.ofNat 125

/-- JSON string-content escaping, as performed by the JS builtin
`JSON.stringify` on the field values: quotes and backslashes are preceded by a
backslash. -/
def escChars : List Char → List Char
  | [] => []
  | c :: cs =>
    if c = quoteChar ∨ c = backslashChar then backslashChar :: c :: escChars cs
    else c :: escChars cs

/-- Parsing the body of a JSON string literal up to and including its closing
quote, as performed by the JS builtin `JSON.parse`: returns the unescaped
content and the remaining input, or `none` on malformed input. -/
def parseStrChars : List Char → Option (List Char × List Char)
  | [] => none
  | c :: cs =>
    if c = backslashChar then
      match cs with
      | [] => none
      | d :: ds =>
        match parseStrChars ds with
        | none => none
        | some p => some (d :: p.1, p.2)
    else if c = quoteChar then some ([], cs)
    else
      match parseStrChars cs with
      | none => none
      | some p => some (c :: p.1, p.2)

/-- Consume an expected literal prefix, returning the rest of the input. -/
def dropLit : List Char → List Char → Option (List Char)
  | [], s => some s
  | _ :: _, [] => none
  | l :: ls, c :: cs => if c = l then dropLit ls cs else none

/-- The serialized text up to and including the opening quote of the `id`
value. -/
def preLit : List Char := openBraceChar :: String.toList "\x22id\x22:\x22"

/-- The serialized text between the `id` value's closing quote and the opening
quote of the `name` value. -/
def midLit : List Char := String.toList ",\x22name\x22:\x22"

/-- `JSON.stringify({id, name})`: the serialized identity record. -/
def jsonOfUser (u : StoredUser) : List Char :=
  preLit ++ (escChars u.id.toList ++
    quoteChar :: (midLit ++ (escChars u.name.toList ++ quoteChar :: [closeBraceChar])))

/-- `JSON.parse` specialised to the stored identity shape: recovers `{id, name}`
or fails. -/
def parseUser (s : List Char) : Option StoredUser :=
  match dropLit preLit s with
  | none => none
  | some r1 =>
    match parseStrChars r1 with
    | none => none
    | some p1 =>
      match dropLit midLit p1.2 with
      | none => none
      | some r3 =>
        match parseStrChars r3 with
        | none => none
        | some p2 =>
          if p2.2 = [closeBraceChar] then some ⟨String.mk p1.1, String.mk p2.1⟩
          else none

/-- `getStoredUser` (part_000 lines 10–17): read the single `chatify-user`
key (modelled as the whole client storage, an optional string) and `JSON.parse`
it, returning null when the key is absent or parsing throws. -/
def getStoredUser (storage : Option String) : Option StoredUser :=
  match storage with
  | none => none
  | some s => parseUser s.toList

/-- `handleLogin(username)` (part_000 lines 23–30): build the new identity with
id `user_<Date.now()>_<random>`, write its JSON to the `chatify-user` key and
make it the current user. `now` models `Date.now()` and `rand` the
`Math.random().toString(36).substring(2, 9)` suffix. -/
def handleLogin (_storage : Option String) (username : String) (now : Nat)
    (rand : String) : Option String × StoredUser :=
  let newUser : StoredUser := ⟨"user_" ++ toString now ++ "_" ++ rand, username⟩
  (some (String.mk (jsonOfUser newUser)), newUser)

theorem dropLit_append (lit rest : List Char) : dropLit lit (lit ++ rest) = some rest := by
  induction lit with
  | nil => rfl
  | cons c cs ih => simpa [dropLit] using ih

theorem quoteChar_ne_backslashChar : quoteChar ≠ backslashChar := by decide

theorem parseStrChars_cons_backslash (c : Char) (cs : List Char) :
    parseStrChars (backslashChar :: c :: cs)
      = match parseStrChars cs with
        | none => none
        | some p => some (c :: p.1, p.2) := by
  rw [parseStrChars.eq_def]
  simp

theorem parseStrChars_cons_quote (cs : List Char) :
    parseStrChars (quoteChar :: cs) = some ([], cs) := by
  rw [parseStrChars.eq_def]
  simp [quoteChar_ne_backslashChar]

theorem parseStrChars_cons_other (c : Char) (cs : List Char) (h1 : c ≠ quoteChar)
    (h2 : c ≠ backslashChar) :
    parseStrChars (c :: cs)
      = match parseStrChars cs with
        | none => none
        | some p => some (c :: p.1, p.2) := by
  rw [parseStrChars.eq_def]
  simp [h1, h2]

theorem parseStrChars_escChars (s rest : List Char) :
    parseStrChars (escChars s ++ quoteChar :: rest) = some (s, rest) := by
  induction s with
  | nil =>
    simpa [escChars] using parseStrChars_cons_quote rest
  | cons c cs ih =>
    by_cases hc : c = quoteChar ∨ c = backslashChar
    · simp only [escChars, if_pos hc, List.cons_append]
      rw [parseStrChars_cons_backslash]
      simp [ih]
    · push_neg at hc
      rw [escChars, if_neg (show ¬(c = quoteChar ∨ c = backslashChar) by tauto),
        List.cons_append]
      rw [parseStrChars_cons_other c _ hc.1 hc.2]
      simp [ih]

theorem parseUser_jsonOfUser (u : StoredUser) : parseUser (jsonOfUser u) = some u := by
  rw [jsonOfUser, parseUser]
  simp only [dropLit_append, parseStrChars_escChars]
  simp

/-- The part_000 client state relevant to persistence: the single
`chatify-user` storage key, the current user, the active chat, the message map
and the typing-chat set. -/
structure AppState where
  storage : Option String
  user : Option StoredUser
  activeChatId : String
  messages : MessageLog
  typingChats : List String

/-- The client-visible events of the part_000 variant: a login submit, an
inbound `newMessage`, an inbound `typing`, and an outgoing send. -/
inductive AppEvent where
  | loginEv : String → Nat → String → AppEvent
  | recvMessage : ChatMessage → AppEvent
  | recvTyping : TypingEvent → AppEvent
  | sendEv : String → Nat → String → AppEvent

/-- Whether an event is the login submit. -/
def isLoginEvent : AppEvent → Bool
  | AppEvent.loginEv _ _ _ => true
  | _ => false

/-- One client event step of the part_000 variant. Socket handlers and
`handleSendMessage` live inside `ChatApp`, which is mounted only once a user
exists, so pre-login non-login events change nothing; only `handleLogin`
touches the storage key. -/
def appStep (s : AppState) : AppEvent → AppState
  | AppEvent.loginEv name now rand =>
    let p := handleLogin s.storage name now rand
    { s with storage := p.1, user := some p.2 }
  | AppEvent.recvMessage m =>
    match s.user with
    | some u => { s with messages := part000NewMessageHandler u.id s.messages m }
    | none => s
  | AppEvent.recvTyping e =>
    match s.user with
    | some _ => { s with typingChats := typingHandler s.typingChats e }
    | none => s
  | AppEvent.sendEv content now ts =>
    match s.user with
    | some u =>
      { s with messages :=
          (handleSendMessage s.activeChatId u.id s.messages content now ts).1 }
    | none => s

/-- Claim C7: logging in with any username whose trim is non-empty writes the
identity `{id: user_<now>_<rand>, name: username}` to the single storage key,
and a subsequent startup read `getStoredUser` returns exactly that identity
(so no new one is created on reload); moreover no event other than the login
submit ever changes the storage key. -/
theorem identity_roundtrip (storage : Option String) (username : String)
    (now : Nat) (rand : String) (h : jsTrim username ≠ "") :
    getStoredUser (handleLogin storage username now rand).1
        = some (handleLogin storage username now rand).2 ∧
    (handleLogin storage username now rand).2.name = username ∧
    (handleLogin storage username now rand).2.id
        = "user_" ++ toString now ++ "_" ++ rand ∧
    (∀ (s : AppState) (e : AppEvent), isLoginEvent e = false →
      (appStep s e).storage = s.storage) := by
  refine ⟨?_, rfl, rfl, ?_⟩
  · show parseUser (String.mk (jsonOfUser (handleLogin storage username now rand).2)).toList
        = some (handleLogin storage username now rand).2
    exact parseUser_jsonOfUser _
  · intro s e he
    cases e with
    | loginEv name now rand => simp [isLoginEvent] at he
    | recvMessage m => cases hu : s.user <;> simp [appStep, hu]
    | recvTyping ev => cases hu : s.user <;> simp [appStep, hu]
    | sendEv content now ts => cases hu : s.user <;> simp [appStep, hu]

/-- Witness for `identity_roundtrip`: logging in as Alice persists an identity
that a reload reads back unchanged. -/
theorem identity_roundtrip_witness :
    jsTrim "Alice" ≠ "" ∧
    (getStoredUser (handleLogin none "Alice" 7 "abc1234").1
        = some (handleLogin none "Alice" 7 "abc1234").2 ∧
      (handleLogin none "Alice" 7 "abc1234").2.name = "Alice" ∧
      (handleLogin none "Alice" 7 "abc1234").2.id = "user_" ++ toString 7 ++ "_" ++ "abc1234" ∧
      (∀ (s : AppState) (e : AppEvent), isLoginEvent e = false →
        (appStep s e).storage = s.storage)) :=
  ⟨by decide, identity_roundtrip none "Alice" 7 "abc1234" (by decide)⟩

/-- The transport connection state seen by the client: the current user (if
any) and whether `socket.connect()` has been performed. -/
structure ConnState where
  user : Option StoredUser
  connected : Bool
deriving DecidableEq, Repr

/-- part_000 line 7: `io(API_URL, { autoConnect: false })` — the socket does
not connect at module load. -/
def part000AutoConnect : Bool := false

/-- App.jsx line 8: `io(API_URL)` — `autoConnect` defaults to true, so the
socket connects at module load. -/
def appJsxAutoConnect : Bool := true

/-- The part_000 state at module load: the user read from storage, the socket
not yet connected. -/
def part000Init (storage : Option String) : ConnState :=
  ⟨getStoredUser storage, part000AutoConnect⟩

/-- The part_000 connect effect (lines 32–41): `if (user) socket.connect()`. -/
def connectEffect (s : ConnState) : ConnState :=
  if s.user.isSome then ⟨s.user, true⟩ else s

/-- The only event that changes the identity in part_000: a login, after which
the effect re-runs. -/
inductive ConnEvent where
  | loginEv : StoredUser → ConnEvent

/-- One identity-change step: `setUser(newUser)` followed by the re-run of the
connect effect. -/
def connStep (s : ConnState) : ConnEvent → ConnState
  | ConnEvent.loginEv u => connectEffect ⟨some u, s.connected⟩

/-- The part_000 connection state after startup (initial effect run) and a
sequence of logins. -/
def part000Run (storage : Option String) (evs : List ConnEvent) : ConnState :=
  evs.foldl connStep (connectEffect (part000Init storage))

/-- The App.jsx state at module load: no identity exists anywhere in that
variant (it has no login flow), yet the socket connects immediately. -/
def appJsxInit : ConnState :=
  ⟨none, appJsxAutoConnect⟩

/-- Claim C8 (counterexample): in the `src/src/App.jsx` variant the socket is
connected at module load while no user identity exists, so a connect does
occur while the identity is absent. -/
theorem appJsx_connects_without_identity_cex :
    appJsxInit.connected = true ∧ appJsxInit.user = none := by
  decide

/-- Claim C8 (amended): in the `part_000` variant (`autoConnect: false`, connect
effect gated on `user`), in every execution — any stored identity and any
sequence of logins — the socket is connected only when an identity is known. -/
theorem part000_connect_requires_identity (storage : Option String)
    (evs : List ConnEvent) (h : (part000Run storage evs).connected = true) :
    (part000Run storage evs).user.isSome = true := by
  suffices hinv : ∀ (l : List ConnEvent) (s : ConnState),
      (s.connected = true → s.user.isSome = true) →
      ((l.foldl connStep s).connected = true → (l.foldl connStep s).user.isSome = true) by
    refine hinv evs (connectEffect (part000Init storage)) ?_ h
    rw [part000Init, connectEffect]
    by_cases hu : (getStoredUser storage).isSome <;> simp [hu, part000AutoConnect]
  intro l
  induction l with
  | nil => intro s hs; exact hs
  | cons e l ih =>
    intro s hs
    refine ih (connStep s e) ?_
    cases e with
    | loginEv u => intro _; simp [connStep, connectEffect]

/-- Witness for `part000_connect_requires_identity`: empty storage followed by
a login leaves the socket connected with an identity present. -/
theorem part000_connect_requires_identity_witness :
    (part000Run none [ConnEvent.loginEv ⟨"user_1_a", "Alice"⟩]).connected = true ∧
    (part000Run none [ConnEvent.loginEv ⟨"user_1_a", "Alice"⟩]).user.isSome = true :=
  ⟨by decide,
    part000_connect_requires_identity none [ConnEvent.loginEv ⟨"user_1_a", "Alice"⟩] (by decide)⟩

/-- A user-directory entry (`/api/users` value): `{ name, avatar }`. -/
structure DirUser where
  name : String
  avatar : String
deriving DecidableEq, Repr

/-- What a rendered `MessageBubble` shows; `none` models `return null` (the
message dropped from the render). -/
structure RenderedBubble where
  content : String
  timestamp : String
  isSent : Bool
deriving DecidableEq, Repr

/-- `MessageBubble` in `src/src/App.jsx` (lines 321–331): look up the sender in
the user directory and return null when absent. -/
def messageBubbleAppJsx (users : String → Option DirUser) (m : ChatMessage) :
    Option RenderedBubble :=
  let isSent := m.senderId = appJsxCurrentUserId
  match users m.senderId with
  | none => none
  | some _ => some ⟨m.content, m.timestamp, isSent⟩

/-- The temporary user object `{ name: 'You', avatar: ... }` that the part_000
`MessageBubble` writes into the users map for an unknown current-user sender. -/
def tempYouUser : DirUser :=
  ⟨"You", "https://placehold.co/100x100/3B82F6/FFFFFF?text=You"⟩

/-- `MessageBubble` in `src/unnamed/part_000` (lines 322–330): an unknown
sender is dropped (`return null`) only when it is not the current user; an
unknown current-user sender gets a temporary `You` entry written into the users
map and the bubble is rendered anyway. Returns the rendered output and the
users map (mutated in the temporary-user case). -/
def messageBubblePart000 (currentUserId : String) (users : String → Option DirUser)
    (m : ChatMessage) : Option RenderedBubble × (String → Option DirUser) :=
  let isSent := m.senderId = currentUserId
  match users m.senderId with
  | some _ => (some ⟨m.content, m.timestamp, isSent⟩, users)
  | none =>
    if isSent then
      let users2 := fun k => if k = currentUserId then some tempYouUser else users k
      (some ⟨m.content, m.timestamp, isSent⟩, users2)
    else (none, users)

/-- A message from a sender absent from the user directory, authored by the
current user `alice`. -/
def unknownSelfMsg : ChatMessage :=
  { id := "msg_2", chatId := "chat1", senderId := "alice"
  , content := "hello", timestamp := "10:31 AM", status := "sent" }

/-- The empty user directory. -/
def noUsers : String → Option DirUser := fun _ => none

/-- Claim C9 (counterexample): in the `part_000` variant, a message whose
sender id is absent from the user directory but equals the current user's id is
NOT dropped: `MessageBubble` renders it (after inserting a temporary `You`
user). -/
theorem unknown_sender_rendered_cex :
    noUsers unknownSelfMsg.senderId = none ∧
    unknownSelfMsg.senderId = "alice" ∧
    (messageBubblePart000 "alice" noUsers unknownSelfMsg).1 ≠ none := by
  refine ⟨rfl, rfl, ?_⟩
  decide

/-- Claim C9 (amended): a message whose sender is absent from the user
directory produces no render output — unconditionally in the App.jsx variant,
and in the part_000 variant whenever the sender is not the current user (where
additionally the users map is left untouched). Both renderers are total, so no
error is raised. -/
theorem unknown_sender_dropped (users : String → Option DirUser) (m : ChatMessage)
    (currentUserId : String) (h : users m.senderId = none) :
    messageBubbleAppJsx users m = none ∧
    (m.senderId ≠ currentUserId →
      (messageBubblePart000 currentUserId users m).1 = none ∧
      (messageBubblePart000 currentUserId users m).2 = users) := by
  constructor
  · simp [messageBubbleAppJsx, h]
  · intro hne
    simp [messageBubblePart000, h, hne]

/-- Witness for `unknown_sender_dropped`: an unknown sender distinct from the
current user is dropped by both variants. -/
theorem unknown_sender_dropped_witness :
    noUsers unknownSelfMsg.senderId = none ∧ unknownSelfMsg.senderId ≠ "user1" ∧
    (messageBubbleAppJsx noUsers unknownSelfMsg = none ∧
      ((messageBubblePart000 "user1" noUsers unknownSelfMsg).1 = none ∧
        (messageBubblePart000 "user1" noUsers unknownSelfMsg).2 = noUsers)) :=
  ⟨rfl, by decide,
    (unknown_sender_dropped noUsers unknownSelfMsg "user1" rfl).1,
    (unknown_sender_dropped noUsers unknownSelfMsg "user1" rfl).2 (by decide)⟩

/-- Claim C10: every message-log mutation is a single append at the target
chat and leaves every other chat's log unchanged. For inbound `newMessage`
events this holds for both variants' handlers (in part_000 a suppressed
self-sent event performs no mutation at all, leaving the whole map unchanged);
for an outgoing send with non-blank content, the active chat's log gains
exactly the constructed message and other chats are untouched. -/
theorem message_log_frame (prev : MessageLog) (m : ChatMessage)
    (currentUserId : String) :
    (∀ c, c ≠ m.chatId →
      appJsxNewMessageHandler prev m c = prev c ∧
      part000NewMessageHandler currentUserId prev m c = prev c) ∧
    appJsxNewMessageHandler prev m m.chatId = prev m.chatId ++ [m] ∧
    (m.senderId ≠ currentUserId →
      part000NewMessageHandler currentUserId prev m m.chatId = prev m.chatId ++ [m]) ∧
    (m.senderId = currentUserId →
      part000NewMessageHandler currentUserId prev m = prev) ∧
    (∀ (activeChatId senderId content : String) (now : Nat) (ts : String),
      jsTrim content ≠ "" →
      (∀ c, c ≠ activeChatId →
        (handleSendMessage activeChatId senderId prev content now ts).1 c = prev c) ∧
      (handleSendMessage activeChatId senderId prev content now ts).1 activeChatId
        = prev activeChatId ++ [mkSentMessage activeChatId senderId content now ts]) := by
  refine ⟨?_, ?_, ?_, ?_, ?_⟩
  · intro c hc
    constructor
    · simp [appJsxNewMessageHandler, applyAppend, hc]
    · by_cases hs : m.senderId = currentUserId <;>
        simp [part000NewMessageHandler, applyAppend, hc, hs]
  · simp [appJsxNewMessageHandler, applyAppend]
  · intro hs
    simp [part000NewMessageHandler, applyAppend, hs]
  · intro hs
    simp [part000NewMessageHandler, hs]
  · intro activeChatId senderId content now ts htrim
    constructor
    · intro c hc
      simp [handleSendMessage, htrim, applyAppend, mkSentMessage, hc]
    · simp [handleSendMessage, htrim, applyAppend, mkSentMessage]

/-- Witness for `message_log_frame`: a concrete inbound message touches only
its own chat, and a concrete send appends one message to the active chat while
leaving another chat untouched. -/
theorem message_log_frame_witness :
    ("chat9" ≠ ("chat1" : String) ∧
      appJsxNewMessageHandler emptyLog appJsxEchoMsg "chat9" = emptyLog "chat9" ∧
      part000NewMessageHandler "bob" emptyLog appJsxEchoMsg "chat9" = emptyLog "chat9") ∧
    (jsTrim "hey" ≠ "" ∧
      (handleSendMessage "chat1" "bob" emptyLog "hey" 9 "10:32 AM").1 "chat1"
        = emptyLog "chat1" ++ [mkSentMessage "chat1" "bob" "hey" 9 "10:32 AM"]) :=
  ⟨⟨by decide, (message_log_frame emptyLog appJsxEchoMsg "bob").1 "chat9" (by decide)⟩,
    by decide,
    ((message_log_frame emptyLog appJsxEchoMsg "bob").2.2.2.2 "chat1" "bob" "hey" 9 "10:32 AM"
      (by decide)).2⟩
